import Mathlib

/-!
Shallow embedding of the chdb-bun FFI layer (src/index.ts) for verification.

JavaScript strings are modelled as lists of characters (`JSStr`); all inputs
considered here are ASCII, where JS code-unit indexing coincides with
character indexing.  Native pointers are modelled as `Nat` (with `Option`
for nullable pointers).  Calls across the FFI boundary, memory reads of the
`local_result_v2` block, generator yields and finalization-registry
unregistration are recorded as events in a trace (`Ev`), so that claims
about "exactly once" invocation and ordering can be stated.
-/

/-- JavaScript string, modelled as a list of characters. -/
abbrev JSStr := List Char

/-- Events observable at the FFI / registry boundary.  `readPtr`, `readU64`
and `readF64` record `read.ptr`/`read.u64`/`read.f64` on a
`local_result_v2` block at the given byte offset; `cstring` records a
`CString` decode; the `call*` events record invocations of the native entry
points; `yieldChunk` records a generator `yield`; `unregisterStream`
records `streamRegistry.unregister`. -/
inductive Ev where
  | readPtr (off : Nat)
  | readU64 (off : Nat)
  | readF64 (off : Nat)
  | cstring
  | callFree
  | callFetch
  | callStreamError
  | callCancel
  | callDestroy
  | callCloseConn
  | yieldChunk
  | unregisterStream
deriving DecidableEq, Repr

/-- Number of occurrences of an event in a trace. -/
def countEv (e : Ev) (tr : List Ev) : Nat := tr.count e

/-- `interface QueryStats` (src/index.ts lines 4-8).  `elapsed` holds the
raw 64-bit pattern of the double read at offset 24 (its floating-point
interpretation is irrelevant to every claim). -/
structure QueryStats where
  elapsed : Nat
  rowsRead : Nat
  bytesRead : Nat
deriving DecidableEq, Repr

/-- `interface QueryResultWithStats` (src/index.ts lines 10-13). -/
structure QueryResultWithStats where
  data : JSStr
  stats : QueryStats
deriving DecidableEq, Repr

/-- A JavaScript `Error` value: its `name` and `message` fields. -/
structure JSError where
  name : JSStr
  message : JSStr
deriving DecidableEq, Repr

/-- `class CHDBError extends Error` (src/index.ts lines 15-20): sets
`this.name = "CHDBError"` and carries the given message. -/
def CHDBError (message : JSStr) : JSError :=
  ⟨("CHDBError").toList, message⟩

/-- The native `local_result_v2` block (layout documented at src/index.ts
lines 96-105).  `buf` is the `char *` at offset 0 (`none` = null), `len`
the `size_t` at offset 8, `elapsed` the raw bits of the double at offset
24, `rows_read`/`bytes_read` the `uint64_t`s at offsets 32/40, and
`error_message` the `char *` at offset 48 (`none` = null).  The opaque
`_vec` field at offset 16 is never read by the code and is not modelled. -/
structure LocalResultV2 where
  buf : Option JSStr
  len : Nat
  elapsed : Nat
  rows_read : Nat
  bytes_read : Nat
  error_message : Option JSStr
deriving DecidableEq, Repr

/-- The bytes decoded by `new CString(bufPtr, 0, Number(len))`: the first
`len` characters of the buffer.  A null buffer decodes to the empty
string (this branch is unreachable from the streaming path, which guards
on the data pointer first). -/
def cstringOf (buf : Option JSStr) (len : Nat) : JSStr :=
  match buf with
  | some b => b.take len
  | none => []

/-- `processLocalResultV2` (src/index.ts lines 95-134), returning the
result or thrown error together with the trace of block reads and native
calls.  Mirrors the source: the error-message pointer at offset 48 is read
first; if non-null, its text is decoded and a `CHDBError` prefixed with
"chDB Error: " is thrown; otherwise the data pointer (offset 0), length
(offset 8) and the three stats fields are read and the decoded result is
returned.  The `try`/`finally` invokes `free_result_v2` on every exit
path, recorded as the final `callFree` event. -/
def processLocalResultV2 (r : LocalResultV2) :
    Except JSError QueryResultWithStats × List Ev :=
  let body : Except JSError QueryResultWithStats × List Ev :=
    match r.error_message with
    | some msg =>
      (Except.error (CHDBError (("chDB Error: ").toList ++ msg)), [Ev.cstring])
    | none =>
      (Except.ok
        { data := cstringOf r.buf r.len
          stats :=
            { elapsed := r.elapsed
              rowsRead := r.rows_read
              bytesRead := r.bytes_read } },
       [Ev.readPtr 0, Ev.readU64 8, Ev.cstring,
        Ev.readF64 24, Ev.readU64 32, Ev.readU64 40])
  (body.1, Ev.readPtr 48 :: body.2 ++ [Ev.callFree])

/-- A JavaScript plain object used as a string-to-string record, modelled
as an association list in key-insertion order (JS objects enumerate
non-index string keys in insertion order; assigning to an existing key
updates its value in place). -/
abbrev Record := List (JSStr × JSStr)

/-- `params[key] = value`: update in place if the key exists, otherwise
append. -/
def Record.set (r : Record) (k v : JSStr) : Record :=
  if r.any (fun p => p.1 == k) then
    r.map (fun p => if p.1 = k then (k, v) else p)
  else
    r ++ [(k, v)]

/-- `delete params[key]`. -/
def Record.del (r : Record) (k : JSStr) : Record :=
  r.filter (fun p => p.1 != k)

/-- Split a character list on a separator character. -/
def splitOnChar (c : Char) : JSStr → List JSStr
  | [] => [[]]
  | x :: xs =>
    match splitOnChar c xs with
    | [] => if x = c then [[], []] else [[x]]
    | h :: t => if x = c then [] :: h :: t else (x :: h) :: t

/-- Split one `key=value` fragment at its first `=` (no `=` means the
whole fragment is the key and the value is empty). -/
def splitPair (s : JSStr) : JSStr × JSStr :=
  match s.findIdx? (fun c => c = '=') with
  | none => (s, [])
  | some i => (s.take i, s.drop (i + 1))

/-- Model of the platform `URLSearchParams` entry iterator, for inputs
without percent-escapes (none occur in this development): an optional
single leading `?` is dropped, the string is split on `&`, empty fragments
are skipped, each fragment is split at its first `=`, and `+` decodes to a
space in both keys and values. -/
def urlSearchParamsEntries (s : JSStr) : List (JSStr × JSStr) :=
  let s := match s with
    | '?' :: rest => rest
    | other => other
  ((splitOnChar '&' s).filter (fun f => f != [])).map
    (fun f =>
      let p := splitPair f
      (p.1.map (fun c => if c = '+' then ' ' else c),
       p.2.map (fun c => if c = '+' then ' ' else c)))

/-- `search.get(key)`: the value of the first entry with that key. -/
def uspGet (entries : List (JSStr × JSStr)) (k : JSStr) : Option JSStr :=
  (entries.find? (fun p => p.1 == k)).map (fun p => p.2)

/-- The `file:` scheme handling of `parseConnectionString` (src/index.ts
lines 145-150): a leading `file:` is sliced off, and if the remainder
starts with `///` its first two characters are removed. -/
def stripFileScheme (s : JSStr) : JSStr :=
  if List.isPrefixOf (("file:").toList) s then
    let s1 := s.drop 5
    if List.isPrefixOf (("///").toList) s1 then s1.drop 2 else s1
  else s

/-- `parseConnectionString` after the empty/`:memory:` early return and
the `file:` scheme handling (src/index.ts lines 152-174): split off the
query component at the first `?`, collect its entries into `params` (last
occurrence of a key wins), rewrite a truthy `udf_path` into the separator
flag, `user_scripts_path` and
`user_defined_executable_functions_config` entries, and resolve a
non-empty, non-absolute, non-`:memory:` path against the working
directory (`resolve` models `path.resolve`). -/
def parseAfterScheme (resolve : JSStr → JSStr) (str : JSStr) :
    JSStr × Record :=
  let qsplit : JSStr × Record :=
    match str.findIdx? (fun c => c = '?') with
    | none => (str, [])
    | some queryPos =>
      let search := urlSearchParamsEntries (str.drop (queryPos + 1))
      let params := search.foldl (fun p kv => Record.set p kv.1 kv.2) []
      let params :=
        match uspGet search (("udf_path").toList) with
        | some udfPath =>
          if udfPath ≠ [] then
            Record.del
              (((params.set (("--").toList) []).set
                  (("user_scripts_path").toList) udfPath).set
                (("user_defined_executable_functions_config").toList)
                (udfPath ++ ("/*.xml").toList))
              (("udf_path").toList)
          else params
        | none => params
      (str.take queryPos, params)
  let str1 := qsplit.1
  let str2 :=
    if str1 ≠ [] ∧ str1.head? ≠ some '/' ∧ str1 ≠ (":memory:").toList then
      resolve str1
    else str1
  (str2, qsplit.2)

/-- `parseConnectionString` (src/index.ts lines 136-175).  `resolve`
models `path.resolve` on a relative path (it depends on the process
working directory, which is outside the program). -/
def parseConnectionString (resolve : JSStr → JSStr) (str : JSStr) :
    JSStr × Record :=
  if str = [] ∨ str = (":memory:").toList then ((":memory:").toList, [])
  else parseAfterScheme resolve (stripFileScheme str)

/-- The argument-list construction of the `Connection` constructor
(src/index.ts lines 210-226).  `connArgStep` is the loop body over
`Object.entries(params)`: `mode` pushes `--readonly=1` when its value is
`ro` (and nothing otherwise), the key `--` pushes a bare `--`, an empty
value pushes `--key`, and any other pair pushes `--key=value`. -/
def connArgStep (acc : List JSStr) (kv : JSStr × JSStr) : List JSStr :=
  if kv.1 = ("mode").toList then
    if kv.2 = ("ro").toList then acc ++ [("--readonly=1").toList]
    else acc
  else if kv.1 = ("--").toList then acc ++ [("--").toList]
  else if kv.2 = [] then acc ++ [("--").toList ++ kv.1]
  else acc ++ [("--").toList ++ kv.1 ++ ("=").toList ++ kv.2]

/-- The full argument list: `["clickhouse"]`, then `--path=<path>` unless
the path is `:memory:`, then the loop over `Object.entries(params)` in
insertion order. -/
def buildConnectionArgs (path : JSStr) (params : Record) : List JSStr :=
  let args : List JSStr := [("clickhouse").toList]
  let args :=
    if path ≠ (":memory:").toList then
      args ++ [("--path=").toList ++ path]
    else args
  params.foldl connArgStep args

/-- The member names declared by `class Connection` (src/index.ts lines
198-339): the public fields `path` and `params`, the private field `ptr`,
the constructor, and the methods `getConnPtr`, `query` and `stream`. -/
def connectionMembers : List String :=
  ["path", "params", "ptr", "constructor", "getConnPtr", "query", "stream"]

/-- The callback of `connectionRegistry` (src/index.ts lines 66-68): on
reclamation of a Connection it invokes `close_conn` on the stored pointer,
once. -/
def connectionRegistryCallback (_connPtr : Nat) : List Ev :=
  [Ev.callCloseConn]

/-- The callback of `streamRegistry` (src/index.ts lines 70-75): on
reclamation of an abandoned stream context it invokes
`chdb_streaming_cancel_query` then `chdb_destroy_result`. -/
def streamRegistryCallback (_connPtr _streamPtr : Nat) : List Ev :=
  [Ev.callCancel, Ev.callDestroy]

/-- Model of the platform `FinalizationRegistry` unregistration guarantee:
a registration whose unregister token has been passed to `unregister`
never has its callback invoked afterwards.  Applied to a stream-iteration
trace: the supervisor callback can still run only when the trace contains
no `unregisterStream` event. -/
def supervisorCallbackPossible (tr : List Ev) : Bool :=
  !(tr.contains Ev.unregisterStream)

/-- The message of the error thrown when `connect_chdb` returns null
(src/index.ts lines 231-235). -/
def connectFailMsg (path : JSStr) : JSStr :=
  ("Failed to connect to chDB connection at path: ").toList ++ path

/-- The message of the error thrown when a query call returns a null
result pointer (src/index.ts lines 190-194 and 263-267). -/
def nullResultMsg : JSStr :=
  ("chDB call failed to return a result structure (null pointer).").toList

/-- The message of the error thrown by `getConnPtr` when the stored
`chdb_conn**` dereferences to null (src/index.ts lines 242-250). -/
def invalidConnMsg : JSStr :=
  ("Invalid connection pointer. The connection might be corrupted or closed.").toList

/-- The message of the error thrown when `query_conn_streaming` returns
null (src/index.ts lines 329-331). -/
def streamStartFailMsg : JSStr :=
  ("Failed to initiate chDB streaming query.").toList

/-- The exported stateless `query` (src/index.ts lines 177-196), with the
`query_stable_v2` return value supplied as an oracle (`none` = null
pointer): a null return throws a `CHDBError` with the fixed null-result
message, otherwise the block is decoded by `processLocalResultV2`. -/
def queryStateless (nativeResult : Option LocalResultV2) :
    Except JSError QueryResultWithStats :=
  match nativeResult with
  | none => Except.error (CHDBError nullResultMsg)
  | some r => (processLocalResultV2 r).1

/-- The `Connection` constructor (src/index.ts lines 204-240), with the
`connect_chdb` return value supplied as an oracle (`none` = null): the DSN
is parsed, the native argument list is built, and a null connect return
throws a `CHDBError` naming the parsed path; on success the path, params
and handle are stored and the connection is registered with
`connectionRegistry`. -/
def connectionNew (connectResult : Option Nat) (resolve : JSStr → JSStr)
    (dsn : JSStr) : Except JSError (JSStr × Record × Nat) :=
  let parsed := parseConnectionString resolve dsn
  match connectResult with
  | none => Except.error (CHDBError (connectFailMsg parsed.1))
  | some p => Except.ok (parsed.1, parsed.2, p)

/-- `Connection.query` (src/index.ts lines 252-270), with the result of
dereferencing the stored `chdb_conn**` and the `query_conn` return value
supplied as oracles: a null dereference throws the invalid-connection
error, a null query return throws the fixed null-result message, and
otherwise the block is decoded by `processLocalResultV2`. -/
def connQuery (deref : Option Nat) (nativeResult : Option LocalResultV2) :
    Except JSError QueryResultWithStats :=
  match deref with
  | none => Except.error (CHDBError invalidConnMsg)
  | some _ =>
    match nativeResult with
    | none => Except.error (CHDBError nullResultMsg)
    | some r => (processLocalResultV2 r).1

/-- The `query_conn_streaming` null check in `Connection.stream`
(src/index.ts lines 324-331): a null return throws a `CHDBError` before
any cursor is produced. -/
def streamStart (startResult : Option Nat) : Except JSError Nat :=
  match startResult with
  | none => Except.error (CHDBError streamStartFailMsg)
  | some p => Except.ok p

/-- The native side of one streaming query, supplied as an oracle:
`initError` is what `chdb_streaming_result_error` returns before the first
fetch (`none` = null), `chunks` are the successive non-null returns of
`chdb_streaming_fetch_result` (after which it returns null), and
`finalError` is what `chdb_streaming_result_error` returns once fetch has
returned null. -/
structure StreamOracle where
  initError : Option JSStr
  chunks : List LocalResultV2
  finalError : Option JSStr
deriving Repr

/-- Outcome of one pull of the `iterate` loop body (src/index.ts lines
290-315). -/
inductive PullResult where
  | yielded (q : QueryResultWithStats)
  | exhausted
  | errored (e : JSError)
deriving DecidableEq, Repr

/-- Whether a pull yielded a chunk. -/
def PullResult.isYield : PullResult → Bool
  | .yielded _ => true
  | _ => false

/-- One iteration of the fetch loop in `iterate` (src/index.ts lines
290-315), given the `chdb_streaming_fetch_result` return value (`none` =
null) and, for the null case, the current
`chdb_streaming_result_error` state: a null fetch re-checks the error
state and either throws (prefixed "chDB Streaming Fetch Error: ") or
breaks out as exhausted; a non-null block whose data pointer at offset 0
is null is freed and breaks out as exhausted; any other block is decoded
by `processLocalResultV2` and either yielded or, if it carried an error
message, thrown. -/
def pullStep (fetched : Option LocalResultV2) (errState : Option JSStr) :
    PullResult × List Ev :=
  match fetched with
  | none =>
    match errState with
    | some msg =>
      (PullResult.errored
         (CHDBError (("chDB Streaming Fetch Error: ").toList ++ msg)),
       [Ev.callFetch, Ev.callStreamError, Ev.cstring])
    | none => (PullResult.exhausted, [Ev.callFetch, Ev.callStreamError])
  | some r =>
    if r.buf = none then
      (PullResult.exhausted, [Ev.callFetch, Ev.readPtr 0, Ev.callFree])
    else
      let d := processLocalResultV2 r
      match d.1 with
      | Except.ok q =>
        (PullResult.yielded q, Ev.callFetch :: Ev.readPtr 0 :: d.2)
      | Except.error e =>
        (PullResult.errored e, Ev.callFetch :: Ev.readPtr 0 :: d.2)

/-- Result of driving one streaming generator to completion or
abandonment: the chunks the consumer received, the error the generator
threw (if any), and the trace of events. -/
structure RunOut where
  yields : List QueryResultWithStats
  err : Option JSError
  evs : List Ev
deriving DecidableEq, Repr

/-- Decrement a remaining-pull budget (`none` = the consumer iterates to
completion). -/
def decLimit : Option Nat → Option Nat
  | some (k + 1) => some k
  | x => x

/-- The fetch loop of `iterate` (src/index.ts lines 290-315) driven
against a chunk list and final error state, by a consumer who performs at
most `limit` further pulls (`none` = pulls until the generator finishes).
With a budget of `some 0` the consumer abandons at the current yield
point, so the loop body produces no further events.  Otherwise each step
is the corresponding `pullStep` case, and after a yield the loop
continues with the rest of the chunks. -/
def runLoop (chunks : List LocalResultV2) (finalErr : Option JSStr)
    (limit : Option Nat) : RunOut :=
  if limit = some 0 then ⟨[], none, []⟩
  else
    match chunks with
    | [] =>
      match finalErr with
      | some m =>
        ⟨[], some (CHDBError (("chDB Streaming Fetch Error: ").toList ++ m)),
         [Ev.callFetch, Ev.callStreamError, Ev.cstring]⟩
      | none => ⟨[], none, [Ev.callFetch, Ev.callStreamError]⟩
    | c :: rest =>
      if c.buf = none then
        ⟨[], none, [Ev.callFetch, Ev.readPtr 0, Ev.callFree]⟩
      else
        let d := processLocalResultV2 c
        match d.1 with
        | Except.error e =>
          ⟨[], some e, Ev.callFetch :: Ev.readPtr 0 :: d.2⟩
        | Except.ok q =>
          let sub := runLoop rest finalErr (decLimit limit)
          ⟨q :: sub.yields, sub.err,
           Ev.callFetch :: Ev.readPtr 0 :: d.2 ++ Ev.yieldChunk :: sub.evs⟩

/-- One full run of the generator returned by `Connection.stream`
(src/index.ts lines 278-320), against a `StreamOracle`, by a consumer who
performs at most `limit` pulls.  A budget of `some 0` means the consumer
never starts the generator, so neither the body nor the `finally` clause
runs.  Otherwise the body first checks `chdb_streaming_result_error`
(throwing with the "chDB Streaming Initialization Error: " prefix if it
is non-null) and then runs the fetch loop; the `finally` clause
unregisters the context from `streamRegistry` and invokes
`chdb_destroy_result`, on every exit path. -/
def runStream (o : StreamOracle) (limit : Option Nat) : RunOut :=
  if limit = some 0 then ⟨[], none, []⟩
  else
    let body : RunOut :=
      match o.initError with
      | some m =>
        ⟨[], some (CHDBError
            (("chDB Streaming Initialization Error: ").toList ++ m)),
         [Ev.callStreamError, Ev.cstring]⟩
      | none =>
        let l := runLoop o.chunks o.finalError limit
        ⟨l.yields, l.err, Ev.callStreamError :: l.evs⟩
    ⟨body.yields, body.err, body.evs ++ [Ev.unregisterStream, Ev.callDestroy]⟩

/-- The contribution of a single `(key, value)` param to the native
argument list, as a standalone function: the branches of the loop at
src/index.ts lines 214-226, each producing its pushed entries. -/
def paramEntry (k v : JSStr) : List JSStr :=
  if k = ("mode").toList then
    if v = ("ro").toList then [("--readonly=1").toList] else []
  else if k = ("--").toList then [("--").toList]
  else if v = [] then [("--").toList ++ k]
  else [("--").toList ++ k ++ ("=").toList ++ v]

/-- The file-scheme transformation as claim C5 words it, for comparison
with `stripFileScheme`: strip the leading `file:`; if the remainder then
begins with `//`, collapse exactly one `/` away. -/
def stripFileScheme_claimVersion (s : JSStr) : JSStr :=
  if List.isPrefixOf (("file:").toList) s then
    let s1 := s.drop 5
    if List.isPrefixOf (("//").toList) s1 then s1.drop 1 else s1
  else s

/-- The name of an error outcome, if any. -/
def errNameOf {α : Type} : Except JSError α → Option JSStr
  | Except.error e => some e.name
  | Except.ok _ => none

/-- The classes extending `Error` declared anywhere in src/index.ts:
only `CHDBError` (lines 15-20). -/
def declaredErrorClasses : List String := ["CHDBError"]

/-- Example block: a successful chunk carrying the payload "1\n". -/
def okBlock : LocalResultV2 :=
  ⟨some (("1\n").toList), 2, 0, 1, 2, none⟩

/-- Example block: a result carrying the native error message "boom". -/
def errBlock : LocalResultV2 :=
  ⟨none, 0, 0, 0, 0, some (("boom").toList)⟩

/-- Example block: non-null result whose data pointer at offset 0 is
null. -/
def nullBufBlock : LocalResultV2 :=
  ⟨none, 0, 0, 0, 0, none⟩

/-- Example block: an error result whose data pointer is non-null, so the
streaming loop reaches the decoder and the decoder throws. -/
def errBlockWithBuf : LocalResultV2 :=
  ⟨some (("x").toList), 1, 0, 0, 0, some (("bad").toList)⟩

/-- Example argument of `buildConnectionArgs`: the path `/tmp/db`. -/
def tmpDbPath : JSStr := ("/tmp/db").toList

/-! Helper lemmas shared by the claim theorems. -/

/-- Every error produced by the Result Decoder is a `CHDBError`, so its
`name` is `"CHDBError"`. -/
theorem processLocalResultV2_err_name (r : LocalResultV2) (e : JSError)
    (h : (processLocalResultV2 r).1 = Except.error e) :
    e.name = ("CHDBError").toList := by
  cases hm : r.error_message with
  | none => simp [processLocalResultV2, hm] at h
  | some m =>
    simp [processLocalResultV2, hm] at h
    rw [← h]
    rfl

/-- The fetch-loop trace never contains a cancel, a destroy, or an
unregistration: those events belong to the `finally` clause and the
registry callback only. -/
theorem runLoop_no_cleanup (chunks : List LocalResultV2) (f : Option JSStr)
    (limit : Option Nat) :
    countEv Ev.callCancel (runLoop chunks f limit).evs = 0 ∧
    countEv Ev.callDestroy (runLoop chunks f limit).evs = 0 ∧
    Ev.unregisterStream ∉ (runLoop chunks f limit).evs := by
  induction chunks generalizing limit with
  | nil =>
    unfold runLoop
    split
    · simp [countEv]
    · cases f <;> simp [countEv]
  | cons c rest ih =>
    unfold runLoop
    split
    · simp [countEv]
    · by_cases hb : c.buf = none
      · simp [hb, countEv]
      · cases hm : c.error_message with
        | some m => simp [hb, hm, processLocalResultV2, countEv]
        | none =>
          have h1 := ih (decLimit limit)
          simp [countEv] at h1
          simp [hb, hm, processLocalResultV2, countEv, List.count_append,
            List.count_cons, List.mem_append, List.mem_cons,
            h1.1, h1.2.1, h1.2.2]

/-- The Result Decoder's outcome never carries an error whose name is not
`"CHDBError"`. -/
theorem errNameOf_processLocal (r : LocalResultV2) :
    errNameOf (processLocalResultV2 r).1 = none ∨
    errNameOf (processLocalResultV2 r).1 = some (("CHDBError").toList) := by
  cases h : (processLocalResultV2 r).1 with
  | ok q => left; simp [errNameOf]
  | error e => right; simp [errNameOf, processLocalResultV2_err_name r e h]

/-- Every error surfacing from the fetch loop is a `CHDBError`. -/
theorem runLoop_err_name (chunks : List LocalResultV2) (f : Option JSStr)
    (limit : Option Nat) :
    (runLoop chunks f limit).err.map JSError.name = none ∨
    (runLoop chunks f limit).err.map JSError.name
        = some (("CHDBError").toList) := by
  induction chunks generalizing limit with
  | nil =>
    unfold runLoop
    split
    · left; rfl
    · cases f with
      | none => left; rfl
      | some m => right; rfl
  | cons c rest ih =>
    unfold runLoop
    split
    · left; rfl
    · by_cases hb : c.buf = none
      · simp [hb]
      · cases hm : c.error_message with
        | some m =>
          right
          simp [hb, hm, processLocalResultV2, CHDBError]
        | none =>
          have h := ih (decLimit limit)
          cases he : (runLoop rest f (decLimit limit)).err with
          | none => left; simp [hb, hm, processLocalResultV2, he]
          | some e =>
            rw [he] at h
            rcases h with h | h
            · simp at h
            · simp only [Option.map_some'] at h
              right
              simp [hb, hm, processLocalResultV2, he, h]

/-- The `Connection` loop body pushes exactly the entries described by
`paramEntry`. -/
theorem connArgStep_eq (acc : List JSStr) (kv : JSStr × JSStr) :
    connArgStep acc kv = acc ++ paramEntry kv.1 kv.2 := by
  unfold connArgStep paramEntry
  split_ifs <;> simp

/-- The fold over the params equals the flattened per-param entries. -/
theorem foldl_connArgStep (params : Record) (acc : List JSStr) :
    params.foldl connArgStep acc
      = acc ++ params.flatMap (fun kv => paramEntry kv.1 kv.2) := by
  induction params generalizing acc with
  | nil => simp
  | cons kv rest ih =>
    simp [List.foldl_cons, List.flatMap_cons, connArgStep_eq, ih]

/-! The claim theorems. -/

/-- Claim C1, counterexample: `Connection` (src/index.ts lines 198-339)
declares no `close` member at all, so "calling close() and then calling
close() again" is not an operation the class offers; the claim as stated
is false of the code. -/
theorem c1_counterexample : "close" ∉ connectionMembers := by decide

/-- Claim C1, as amended: `Connection` exposes no `close()` method, so no
explicit close path exists; the native close entry point is invoked only
by the Finalization Supervisor's callback, which invokes `close_conn`
exactly once per reclaimed connection. -/
theorem c1_no_close (p : Nat) :
    "close" ∉ connectionMembers ∧
    countEv Ev.callCloseConn (connectionRegistryCallback p) = 1 :=
  ⟨by decide, rfl⟩

/-- Claim C2, counterexample: abandoning a stream of two chunks after
consuming one runs cleanup with zero invocations of native cancel (the
claim demands exactly one) and one invocation of native destroy. -/
theorem c2_counterexample :
    (runStream ⟨none, [okBlock, okBlock], none⟩ (some 1)).yields.length = 1 ∧
    countEv Ev.callCancel
        (runStream ⟨none, [okBlock, okBlock], none⟩ (some 1)).evs = 0 ∧
    countEv Ev.callDestroy
        (runStream ⟨none, [okBlock, okBlock], none⟩ (some 1)).evs = 1 := by
  decide

/-- Claim C2, as amended: for every stream iteration that exits — early
consumer abandonment, normal completion, or an error thrown mid-iteration
— cleanup runs exactly once: native destroy is invoked exactly once,
native cancel is never invoked on these paths, the iteration trace ends
with the unregistration followed by the destroy call, and the
Finalization Supervisor's callback for that cursor can never be invoked
afterward. -/
theorem c2_stream_cleanup (o : StreamOracle) (limit : Option Nat)
    (h : limit ≠ some 0) :
    countEv Ev.callDestroy (runStream o limit).evs = 1 ∧
    countEv Ev.callCancel (runStream o limit).evs = 0 ∧
    List.IsSuffix [Ev.unregisterStream, Ev.callDestroy]
        (runStream o limit).evs ∧
    supervisorCallbackPossible (runStream o limit).evs = false := by
  unfold runStream
  rw [if_neg h]
  cases hi : o.initError with
  | some m =>
    refine ⟨?_, ?_, ⟨_, rfl⟩, ?_⟩ <;>
      simp [countEv, supervisorCallbackPossible, List.count_append,
        List.count_cons]
  | none =>
    have h1 := runLoop_no_cleanup o.chunks o.finalError limit
    simp [countEv] at h1
    refine ⟨?_, ?_, ⟨_, rfl⟩, ?_⟩ <;>
      simp [countEv, supervisorCallbackPossible, List.count_append,
        List.count_cons, h1.1, h1.2.1]

/-- Claim C2, witness: the amended cleanup properties at the concrete
abandonment-after-one-chunk run. -/
theorem c2_stream_cleanup_witness :
    countEv Ev.callDestroy
        (runStream ⟨none, [okBlock, okBlock], none⟩ (some 1)).evs = 1 ∧
    countEv Ev.callCancel
        (runStream ⟨none, [okBlock, okBlock], none⟩ (some 1)).evs = 0 ∧
    supervisorCallbackPossible
        (runStream ⟨none, [okBlock, okBlock], none⟩ (some 1)).evs = false := by
  have h := c2_stream_cleanup ⟨none, [okBlock, okBlock], none⟩ (some 1)
    (by decide)
  exact ⟨h.1, h.2.1, h.2.2.2⟩

/-- Claim C3: the Result Decoder frees the block exactly once on every
exit path, and when the error-message field at offset 48 is non-null it
raises a `CHDBError` carrying that message (after the fixed "chDB
Error: " prefix) without ever reading the data pointer at offset 0 or the
length at offset 8. -/
theorem c3_decoder_release (r : LocalResultV2) :
    countEv Ev.callFree (processLocalResultV2 r).2 = 1 ∧
    (∀ m, r.error_message = some m →
      (processLocalResultV2 r).1
          = Except.error (CHDBError (("chDB Error: ").toList ++ m)) ∧
      Ev.readPtr 0 ∉ (processLocalResultV2 r).2 ∧
      Ev.readU64 8 ∉ (processLocalResultV2 r).2) := by
  constructor
  · cases hm : r.error_message <;> simp [processLocalResultV2, hm, countEv]
  · intro m hm
    simp [processLocalResultV2, hm]

/-- Claim C3, witness: the decoder contract at the concrete error block
carrying the message "boom". -/
theorem c3_decoder_release_witness :
    countEv Ev.callFree (processLocalResultV2 errBlock).2 = 1 ∧
    (processLocalResultV2 errBlock).1
        = Except.error (CHDBError (("chDB Error: boom").toList)) ∧
    Ev.readPtr 0 ∉ (processLocalResultV2 errBlock).2 ∧
    Ev.readU64 8 ∉ (processLocalResultV2 errBlock).2 := by
  have h := c3_decoder_release errBlock
  have h2 := h.2 (("boom").toList) rfl
  exact ⟨h.1, h2.1, h2.2.1, h2.2.2⟩

/-- Claim C4, counterexample: the fetch loop receives a non-null result
block whose data pointer is null and does not yield it — it frees the
block and exits as exhausted — contradicting "every non-null return from
native fetch is decoded via the Result Decoder and yielded as one
QueryResult". -/
theorem c4_counterexample :
    PullResult.isYield (pullStep (some nullBufBlock) none).1 = false ∧
    pullStep (some nullBufBlock) none
      = (PullResult.exhausted, [Ev.callFetch, Ev.readPtr 0, Ev.callFree]) := by
  decide

/-- Claim C4, as amended: on a pull in the STREAMING state, a null fetch
return triggers a second error-state check — raising a `CHDBError` if an
error is present and otherwise terminating as exhausted with no error;
a non-null return whose data pointer at offset 0 is null is freed exactly
once and terminates the sequence as exhausted without being yielded; any
other non-null return is decoded via the Result Decoder and yielded as
one QueryResult when decoding succeeds, or raises the decoder's error
when the block carries an error message. -/
theorem c4_pull_states (fetched : Option LocalResultV2)
    (errState : Option JSStr) :
    (fetched = none → errState = none →
      (pullStep fetched errState).1 = PullResult.exhausted) ∧
    (∀ m, fetched = none → errState = some m →
      (pullStep fetched errState).1
        = PullResult.errored
            (CHDBError (("chDB Streaming Fetch Error: ").toList ++ m))) ∧
    (∀ r, fetched = some r → r.buf = none →
      (pullStep fetched errState).1 = PullResult.exhausted ∧
      countEv Ev.callFree (pullStep fetched errState).2 = 1) ∧
    (∀ r q, fetched = some r → r.buf ≠ none →
      (processLocalResultV2 r).1 = Except.ok q →
      (pullStep fetched errState).1 = PullResult.yielded q) ∧
    (∀ r e, fetched = some r → r.buf ≠ none →
      (processLocalResultV2 r).1 = Except.error e →
      (pullStep fetched errState).1 = PullResult.errored e) := by
  refine ⟨?_, ?_, ?_, ?_, ?_⟩
  · rintro rfl rfl; rfl
  · rintro m rfl rfl; rfl
  · rintro r rfl hb; simp [pullStep, hb, countEv]
  · rintro r q rfl hb hq; simp [pullStep, hb, hq]
  · rintro r e rfl hb he; simp [pullStep, hb, he]

/-- Claim C4, witness: all five pull outcomes at concrete inputs. -/
theorem c4_pull_states_witness :
    (pullStep none none).1 = PullResult.exhausted ∧
    (pullStep none (some (("oops").toList))).1
      = PullResult.errored
          (CHDBError (("chDB Streaming Fetch Error: oops").toList)) ∧
    (pullStep (some nullBufBlock) none).1 = PullResult.exhausted ∧
    (pullStep (some okBlock) none).1
      = PullResult.yielded ⟨("1\n").toList, ⟨0, 1, 2⟩⟩ ∧
    (pullStep (some errBlockWithBuf) none).1
      = PullResult.errored (CHDBError (("chDB Error: bad").toList)) := by
  refine ⟨(c4_pull_states none none).1 rfl rfl,
    (c4_pull_states none (some (("oops").toList))).2.1 _ rfl rfl,
    ((c4_pull_states (some nullBufBlock) none).2.2.1 _ rfl rfl).1,
    (c4_pull_states (some okBlock) none).2.2.2.1 _ _ rfl (by decide) rfl,
    (c4_pull_states (some errBlockWithBuf) none).2.2.2.2 _ _ rfl (by decide)
      rfl⟩

/-- Claim C5, counterexample: for the DSN `file://tmp/db` the remainder
after stripping `file:` begins with `//` but the code removes nothing (it
only collapses when the remainder begins with `///`), so the parsed path
is `//tmp/db`, not the `/tmp/db` that "exactly one `/` is collapsed away"
would produce. -/
theorem c5_counterexample :
    parseConnectionString (fun s => s) (("file://tmp/db").toList)
        = ((("//tmp/db").toList), []) ∧
    stripFileScheme (("file://tmp/db").toList) = ("//tmp/db").toList ∧
    stripFileScheme_claimVersion (("file://tmp/db").toList)
        = ("/tmp/db").toList ∧
    ("//tmp/db").toList ≠ ("/tmp/db").toList := by
  decide

/-- Claim C5, as amended: for every DSN beginning with `file:`,
`parseConnectionString` strips the leading `file:`, and if the remaining
string then begins with `///` its first two characters are removed
(collapsing `///` to `/`); a remainder beginning with `//` but not `///`
is left unchanged.  This happens before the query component and
path-resolution rules apply. -/
theorem c5_scheme (resolve : JSStr → JSStr) (s : JSStr) :
    stripFileScheme (("file:").toList ++ s)
        = (if List.isPrefixOf (("///").toList) s then s.drop 2 else s) ∧
    parseConnectionString resolve (("file:").toList ++ s)
        = parseAfterScheme resolve (stripFileScheme (("file:").toList ++ s)) := by
  have hpre : List.isPrefixOf (("file:").toList) (("file:").toList ++ s)
      = true := by
    rw [List.isPrefixOf_iff_prefix]
    exact List.prefix_append _ _
  have hdrop : List.drop 5 (("file:").toList ++ s) = s := rfl
  constructor
  · rw [stripFileScheme, if_pos hpre]
    rw [hdrop]
  · have hcons : ("file:").toList ++ s = 'f' :: (("ile:").toList ++ s) := rfl
    rw [parseConnectionString, if_neg]
    rw [hcons]
    rintro (h | h) <;> simp at h

/-- Claim C6: `parseConnectionString(":memory:")` returns `(":memory:",
{})`; `parseConnectionString("file:///tmp/db?mode=ro")` returns
`("/tmp/db", {mode: "ro"})`; and the native argument list the Connection
constructor builds from the parse of that DSN includes `--readonly=1`. -/
theorem c6_examples (resolve : JSStr → JSStr) :
    parseConnectionString resolve ((":memory:").toList)
        = ((":memory:").toList, []) ∧
    parseConnectionString resolve (("file:///tmp/db?mode=ro").toList)
        = (tmpDbPath, [((("mode").toList), (("ro").toList))]) ∧
    ("--readonly=1").toList
        ∈ buildConnectionArgs
            (parseConnectionString resolve
              (("file:///tmp/db?mode=ro").toList)).1
            (parseConnectionString resolve
              (("file:///tmp/db?mode=ro").toList)).2 := by
  refine ⟨rfl, rfl, ?_⟩
  show ("--readonly=1").toList ∈ buildConnectionArgs tmpDbPath
    [((("mode").toList), (("ro").toList))]
  decide

/-- Claim C7, counterexample: the param `mode=rw` contributes no entry at
all to the argument list — only `clickhouse` and the path flag remain —
contradicting "exactly one entry per remaining param". -/
theorem c7_counterexample :
    buildConnectionArgs tmpDbPath [((("mode").toList), (("rw").toList))]
      = [("clickhouse").toList, ("--path=/tmp/db").toList] ∧
    (buildConnectionArgs tmpDbPath
        [((("mode").toList), (("rw").toList))]).length = 2 := by
  decide

/-- Claim C7, as amended: the constructor builds the engine-identifying
first token, then `--path=<path>` unless the path is `:memory:`, then the
per-param entries in order, where the param `mode` yields `--readonly=1`
when its value is `ro` and yields no entry for any other value, the
separator key yields a bare `--`, an empty value yields `--key`, and any
other pair yields `--key=value`; every param other than `mode` yields
exactly one entry. -/
theorem c7_argument_list (path : JSStr) (params : Record) :
    buildConnectionArgs path params
      = ("clickhouse").toList
          :: ((if path ≠ (":memory:").toList
                then [("--path=").toList ++ path] else [])
              ++ params.flatMap (fun kv => paramEntry kv.1 kv.2)) ∧
    (∀ k v, (paramEntry k v).length
      = if k = ("mode").toList then (if v = ("ro").toList then 1 else 0)
        else 1) := by
  constructor
  · unfold buildConnectionArgs
    rw [foldl_connArgStep]
    split_ifs <;> simp
  · intro k v
    unfold paramEntry
    split_ifs <;> simp

/-- Claim C8, counterexample: a result block carrying the native message
"boom" raises an error whose message is "chDB Error: boom", not the
verbatim "boom" — the library prepends a fixed prefix. -/
theorem c8_counterexample :
    (processLocalResultV2 errBlock).1
        = Except.error (CHDBError (("chDB Error: boom").toList)) ∧
    (CHDBError (("chDB Error: boom").toList)).message ≠ ("boom").toList := by
  constructor
  · rfl
  · decide

/-- Claim C8, as amended: errors raised for a result block carrying an
error message, for a streaming-initialization error, or for a
streaming-fetch error embed the native engine's textual message verbatim
after a fixed site-identifying prefix ("chDB Error: ", "chDB Streaming
Initialization Error: ", "chDB Streaming Fetch Error: "); failures where
the native engine returns a null pointer (connect failure, null query
result, invalid connection dereference, streaming-start failure) carry
fixed library-authored messages, since no native message exists there. -/
theorem c8_message_shapes :
    (∀ r m, r.error_message = some m →
      (processLocalResultV2 r).1
          = Except.error (CHDBError (("chDB Error: ").toList ++ m))) ∧
    (∀ chunks fErr limit m, limit ≠ some 0 →
      (runStream ⟨some m, chunks, fErr⟩ limit).err
          = some (CHDBError
              (("chDB Streaming Initialization Error: ").toList ++ m))) ∧
    (∀ m limit, limit ≠ some 0 →
      (runLoop [] (some m) limit).err
          = some (CHDBError (("chDB Streaming Fetch Error: ").toList ++ m))) ∧
    (∀ resolve dsn, connectionNew none resolve dsn
        = Except.error
            (CHDBError (connectFailMsg (parseConnectionString resolve dsn).1))) ∧
    queryStateless none = Except.error (CHDBError nullResultMsg) ∧
    (∀ p, connQuery (some p) none
        = Except.error (CHDBError nullResultMsg)) ∧
    connQuery none none = Except.error (CHDBError invalidConnMsg) ∧
    streamStart none = Except.error (CHDBError streamStartFailMsg) := by
  refine ⟨?_, ?_, ?_, ?_, rfl, fun p => rfl, rfl, rfl⟩
  · intro r m hm
    simp [processLocalResultV2, hm]
  · intro chunks fErr limit m h
    unfold runStream
    rw [if_neg h]
  · intro m limit h
    unfold runLoop
    rw [if_neg h]
  · intro resolve dsn
    rfl

/-- Claim C8, witness: the message shapes at concrete failing inputs. -/
theorem c8_message_shapes_witness :
    (processLocalResultV2 errBlock).1
        = Except.error (CHDBError (("chDB Error: boom").toList)) ∧
    (runStream ⟨some (("init").toList), [], none⟩ (some 1)).err
        = some (CHDBError
            (("chDB Streaming Initialization Error: init").toList)) ∧
    (runLoop [] (some (("late").toList)) none).err
        = some (CHDBError (("chDB Streaming Fetch Error: late").toList)) ∧
    connectionNew none (fun s => s) ((":memory:").toList)
        = Except.error
            (CHDBError (connectFailMsg ((":memory:").toList))) := by
  have h := c8_message_shapes
  refine ⟨?_, ?_, ?_, ?_⟩
  · have := h.1 errBlock (("boom").toList) rfl
    simpa using this
  · have := h.2.1 [] none (some 1) (("init").toList) (by decide)
    simpa using this
  · have := h.2.2.1 (("late").toList) none (by decide)
    simpa using this
  · have := h.2.2.2.1 (fun s => s) ((":memory:").toList)
    simpa using this

/-- Claim C9: every failure across the public surface — null connect,
null query result, a result block carrying an error message, null
streaming-start, and any error surfacing during stream iteration — is a
`CHDBError` (name "CHDBError"); `CHDBError` is the only class extending
`Error` declared by the module, so no distinct ConnectionError,
QueryError or StreamingError types exist. -/
theorem c9_single_error_class :
    (∀ nr, errNameOf (queryStateless nr) = none ∨
        errNameOf (queryStateless nr) = some (("CHDBError").toList)) ∧
    (∀ cr resolve dsn, errNameOf (connectionNew cr resolve dsn) = none ∨
        errNameOf (connectionNew cr resolve dsn)
          = some (("CHDBError").toList)) ∧
    (∀ deref nr, errNameOf (connQuery deref nr) = none ∨
        errNameOf (connQuery deref nr) = some (("CHDBError").toList)) ∧
    (∀ sr, errNameOf (streamStart sr) = none ∨
        errNameOf (streamStart sr) = some (("CHDBError").toList)) ∧
    (∀ o limit, (runStream o limit).err.map JSError.name = none ∨
        (runStream o limit).err.map JSError.name
          = some (("CHDBError").toList)) ∧
    declaredErrorClasses = ["CHDBError"] := by
  refine ⟨?_, ?_, ?_, ?_, ?_, rfl⟩
  · intro nr
    cases nr with
    | none => right; rfl
    | some r => exact errNameOf_processLocal r
  · intro cr resolve dsn
    cases cr with
    | none => right; rfl
    | some p => left; rfl
  · intro deref nr
    cases deref with
    | none => right; rfl
    | some p =>
      cases nr with
      | none => right; rfl
      | some r => exact errNameOf_processLocal r
  · intro sr
    cases sr with
    | none => right; rfl
    | some p => left; rfl
  · intro o limit
    unfold runStream
    split
    · left; rfl
    · cases hi : o.initError with
      | some m => right; rfl
      | none =>
        simp only
        exact runLoop_err_name o.chunks o.finalError limit

/-- Claim C10: a non-null fetch return whose data pointer at offset 0 is
null is freed via the native free call exactly once, terminates the
sequence as exhausted without being yielded, without consulting the
stream error state, and without raising; at the loop level the iteration
ends with no yields and no error. -/
theorem c10_null_data (r : LocalResultV2) (errState : Option JSStr)
    (h : r.buf = none) :
    pullStep (some r) errState
        = (PullResult.exhausted, [Ev.callFetch, Ev.readPtr 0, Ev.callFree]) ∧
    countEv Ev.callFree (pullStep (some r) errState).2 = 1 ∧
    Ev.callStreamError ∉ (pullStep (some r) errState).2 ∧
    PullResult.isYield (pullStep (some r) errState).1 = false ∧
    (∀ rest fErr limit, limit ≠ some 0 →
      runLoop (r :: rest) fErr limit
          = ⟨[], none, [Ev.callFetch, Ev.readPtr 0, Ev.callFree]⟩) := by
  refine ⟨?_, ?_, ?_, ?_, ?_⟩
  · simp [pullStep, h]
  · simp [pullStep, h, countEv]
  · simp [pullStep, h]
  · simp [pullStep, h, PullResult.isYield]
  · intro rest fErr limit hl
    unfold runLoop
    rw [if_neg hl]
    simp [h]

/-- Claim C10, witness: the null-data-pointer behaviour at the concrete
block. -/
theorem c10_null_data_witness :
    nullBufBlock.buf = none ∧
    pullStep (some nullBufBlock) none
        = (PullResult.exhausted, [Ev.callFetch, Ev.readPtr 0, Ev.callFree]) ∧
    runLoop [nullBufBlock, okBlock] none none
        = ⟨[], none, [Ev.callFetch, Ev.readPtr 0, Ev.callFree]⟩ := by
  have h := c10_null_data nullBufBlock none rfl
  exact ⟨rfl, h.1, h.2.2.2.2 [okBlock] none none (by decide)⟩
